import Mathlib

/-!
Shallow embedding of the task_tracker backend (src/models.py, src/schemas.py,
src/crud.py, src/auth.py, src/main.py) and proofs of the specification claims.

The relational store is modelled as explicit state: the `tasks` table is a
`List Task` in insertion (primary-key) order together with an auto-increment
counter, and the `users` table is a `List User`.  Python exceptions escaping a
handler are modelled with `PyError` (the framework maps them to a 500 server
fault); `HTTPException` responses are modelled with `Resp.httpError`.
-/

set_option autoImplicit false

namespace TaskTracker

/-- `models.TaskStatus`: closed status enum. -/
inductive TaskStatus
  | todo
  | in_progress
  | done
deriving DecidableEq

/-- `models.TaskPriority`: closed priority enum. -/
inductive TaskPriority
  | highest
  | high
  | medium
  | low
  | lowest
deriving DecidableEq

/-- `models.RoleEnum`: user roles. -/
inductive RoleEnum
  | admin
  | read_only
deriving DecidableEq

/-- `schemas.TaskBase` = `TaskCreate` = `TaskUpdate`: the full set of mutable
task fields carried by create and update request bodies.  Note there is no
`id` field. -/
structure TaskBase where
  title : String
  description : String
  reporter : String
  assignee : String
  status : TaskStatus
  priority : TaskPriority
deriving DecidableEq

/-- `models.Task`: a persisted task row; `id` is the primary key assigned by
the repository on creation. -/
structure Task where
  id : Nat
  title : String
  description : String
  reporter : String
  assignee : String
  status : TaskStatus
  priority : TaskPriority
deriving DecidableEq

/-- Modelled from the spec (§4.1): the Password Verifier is realised by the
external passlib `CryptContext` (`crud.pwd_context`), whose code is not part
of this repository.  An opaque hash either carries the salt and digest a
well-formed bcrypt hash encodes, or is a malformed string. -/
inductive OpaqueHash
  | bcrypt (salt : Nat) (digest : Nat)
  | malformed (raw : String)
deriving DecidableEq

/-- Modelled from the spec: the one-way digest underlying the salted adaptive
hash (a concrete stand-in for bcrypt's key derivation). -/
def pw_digest (salt : Nat) (plaintext : String) : Nat :=
  plaintext.data.foldl (fun a c => (a * 31 + c.toNat) % 4294967296) (salt % 4294967296)

/-- Modelled from the spec: `pwd_context.hash(plaintext)` — salted, so the
output depends on a per-call random salt (threaded explicitly here). -/
def pwd_hash (salt : Nat) (plaintext : String) : OpaqueHash :=
  OpaqueHash.bcrypt salt (pw_digest salt plaintext)

/-- Modelled from the spec: `pwd_context.verify(plaintext, opaque_hash)` —
true iff the plaintext re-hashes (under the stored salt) to the stored
digest; a malformed hash yields `false` rather than an exception. -/
def pwd_verify (plaintext : String) (h : OpaqueHash) : Bool :=
  match h with
  | OpaqueHash.bcrypt salt digest => pw_digest salt plaintext == digest
  | OpaqueHash.malformed _ => false

/-- `models.User`: a persisted user row. -/
structure User where
  id : Nat
  email : String
  hashed_password : OpaqueHash
  is_active : Bool
  role : RoleEnum
deriving DecidableEq

/-- `schemas.UserCreate`: registration request body. -/
structure UserCreate where
  email : String
  password : String
  role : RoleEnum
deriving DecidableEq

/-- A Python exception escaping a handler; the HTTP framework surfaces it as
a generic 500 server fault. -/
inductive PyError
  | attributeError (msg : String)
deriving DecidableEq

/-- Outcome of an HTTP handler: a 200 body, an `HTTPException` with status
code and detail, or an uncaught Python exception (500). -/
inductive Resp (α : Type)
  | ok (body : α)
  | httpError (code : Nat) (detail : String)
  | serverError (e : PyError)
deriving DecidableEq

/-- `crud.get_task`: first task whose id matches, or `None`. -/
def get_task (tasks : List Task) (task_id : Nat) : Option Task :=
  tasks.find? (fun t => t.id == task_id)

/-- `crud.get_tasks`: offset/limit pagination in insertion (primary-key)
order. -/
def get_tasks (tasks : List Task) (skip limit : Nat) : List Task :=
  (tasks.drop skip).take limit

/-- `crud.create_task`: assign the next id, persist, return the new store,
next counter and the created row. -/
def create_task (tasks : List Task) (next_id : Nat) (task : TaskBase) :
    List Task × Nat × Task :=
  let db_task : Task :=
    { id := next_id
      title := task.title
      description := task.description
      reporter := task.reporter
      assignee := task.assignee
      status := task.status
      priority := task.priority }
  (tasks ++ [db_task], next_id + 1, db_task)

/-- The loop `for key, value in task.dict().items(): setattr(db_task, key, value)`:
every `TaskBase` field is overwritten; `id` is not among them. -/
def apply_update (db_task : Task) (task : TaskBase) : Task :=
  { db_task with
    title := task.title
    description := task.description
    reporter := task.reporter
    assignee := task.assignee
    status := task.status
    priority := task.priority }

/-- `crud.update_task`, translated statement by statement.  The source reads
`old_status = db_task.status` BEFORE the `if db_task:` truthiness test, so
when the id is absent (`db_task is None`) the attribute access raises
`AttributeError` instead of returning `None`.  On success the committed
store, the refreshed row and the notifications emitted by
`send_status_change_email` (each a `(reporter, task)` pair, sent after the
commit with the post-commit row) are returned. -/
def update_task (tasks : List Task) (task_id : Nat) (task : TaskBase) :
    Except PyError (List Task × Task × List (String × Task)) :=
  match get_task tasks task_id with
  | none => Except.error (PyError.attributeError "NoneType object has no attribute status")
  | some db_task =>
      let old_status := db_task.status
      let new_task := apply_update db_task task
      let tasks1 := tasks.map (fun t => if t.id == task_id then new_task else t)
      let notifs : List (String × Task) :=
        if old_status ≠ new_task.status then [(new_task.reporter, new_task)] else []
      Except.ok (tasks1, new_task, notifs)

/-- `crud.delete_task`: look up the row; if present, delete it (by its
primary key) and commit; return the new store and the prior record (`None`
when absent, leaving the store untouched). -/
def delete_task (tasks : List Task) (task_id : Nat) : List Task × Option Task :=
  match get_task tasks task_id with
  | none => (tasks, none)
  | some db_task => (tasks.filter (fun t => t.id != db_task.id), some db_task)

/-- `crud.get_user_by_email`: first user whose email matches, or `None`. -/
def get_user_by_email (users : List User) (email : String) : Option User :=
  users.find? (fun u => u.email == email)

/-- `crud.create_user`: hash the password (with a fresh salt), insert the row
with the default active flag, return the new store, next counter and the
created row. -/
def create_user (users : List User) (next_uid : Nat) (salt : Nat) (u : UserCreate) :
    List User × Nat × User :=
  let db_user : User :=
    { id := next_uid
      email := u.email
      hashed_password := pwd_hash salt u.password
      is_active := true
      role := u.role }
  (users ++ [db_user], next_uid + 1, db_user)

/-- `crud.authenticate_user`: `False` (here `none`) when the email is unknown
or the password does not verify; otherwise the user. -/
def authenticate_user (users : List User) (email password : String) : Option User :=
  match get_user_by_email users email with
  | none => none
  | some user =>
      if pwd_verify password user.hashed_password then some user else none

/-- `auth.SECRET_KEY`: process-wide static signing key. -/
def SECRET_KEY : String := "your_secret_key"

/-- `auth.ACCESS_TOKEN_EXPIRE_MINUTES`. -/
def ACCESS_TOKEN_EXPIRE_MINUTES : Int := 30

/-- A JWT as produced by `jwt.encode`: the payload `{"sub": ..., "exp": ...}`
together with the key it was signed with (a valid signature is modelled as
the decoding key matching the signing key).  `sub` is optional because
`payload.get("sub")` may be `None` for tokens minted without one. -/
structure Token where
  sub : Option String
  exp : Int
  key : String
deriving DecidableEq

/-- Python truthiness of the optional `expires_delta : timedelta` argument:
`None` and `timedelta(0)` are falsy, every nonzero duration is truthy.
Durations are in seconds. -/
def timedelta_truthy : Option Int → Bool
  | none => false
  | some d => d != 0

/-- `auth.create_access_token` with `data = {"sub": sub}`: the expiry is
`now + expires_delta` when the `if expires_delta:` truthiness test passes,
and the hard-coded `now + timedelta(minutes=15)` fallback otherwise. -/
def create_access_token (sub : String) (now : Int) (expires_delta : Option Int) : Token :=
  let expire : Int :=
    if timedelta_truthy expires_delta then
      (match expires_delta with
       | some d => now + d
       | none => now)
    else
      now + 15 * 60
  { sub := some sub, exp := expire, key := SECRET_KEY }

/-- `jwt.decode(token, key, algorithms=...)`: `none` models a raised
`PyJWTError` — signature failure when the keys differ, or
`ExpiredSignatureError` when `exp <= now`; otherwise the payload's `sub`
entry (`payload.get("sub")`). -/
def jwt_decode (token : Token) (key : String) (now : Int) : Option (Option String) :=
  if token.key == key then
    if token.exp ≤ now then none
    else some token.sub
  else none

/-- `auth.get_current_user`: decode the bearer token, extract the subject
email, look the user up; any failure raises the 401
`credentials_exception`. -/
def get_current_user (users : List User) (token : Token) (now : Int) : Resp User :=
  match jwt_decode token SECRET_KEY now with
  | none => Resp.httpError 401 "Could not validate credentials"
  | some none => Resp.httpError 401 "Could not validate credentials"
  | some (some email) =>
      match get_user_by_email users email with
      | none => Resp.httpError 401 "Could not validate credentials"
      | some user => Resp.ok user

/-- `auth.get_current_active_user`: the active-flag check, layered over
`get_current_user`. -/
def get_current_active_user (users : List User) (token : Token) (now : Int) : Resp User :=
  match get_current_user users token now with
  | Resp.ok current_user =>
      if current_user.is_active then Resp.ok current_user
      else Resp.httpError 400 "Inactive user"
  | Resp.httpError c d => Resp.httpError c d
  | Resp.serverError e => Resp.serverError e

/-- `auth.get_current_admin_user`: the role check, layered over
`get_current_active_user`. -/
def get_current_admin_user (users : List User) (token : Token) (now : Int) : Resp User :=
  match get_current_active_user users token now with
  | Resp.ok current_user =>
      if current_user.role == RoleEnum.admin then Resp.ok current_user
      else Resp.httpError 403 "Not enough permissions"
  | Resp.httpError c d => Resp.httpError c d
  | Resp.serverError e => Resp.serverError e

/-- `main.create_user` (POST /users/): reject a duplicate email with 400
before touching the store; otherwise insert. -/
def app_create_user (users : List User) (next_uid : Nat) (salt : Nat) (u : UserCreate) :
    (List User × Nat) × Resp User :=
  match get_user_by_email users u.email with
  | some _ => ((users, next_uid), Resp.httpError 400 "Email already registered")
  | none =>
      match create_user users next_uid salt u with
      | (users1, uid1, db_user) => ((users1, uid1), Resp.ok db_user)

/-- `main.create_task` (POST /tasks/), gated by `get_current_admin_user`. -/
def app_create_task (users : List User) (tasks : List Task) (next_id : Nat)
    (token : Token) (now : Int) (body : TaskBase) : (List Task × Nat) × Resp Task :=
  match get_current_admin_user users token now with
  | Resp.ok _ =>
      match create_task tasks next_id body with
      | (tasks1, nid1, t) => ((tasks1, nid1), Resp.ok t)
  | Resp.httpError c d => ((tasks, next_id), Resp.httpError c d)
  | Resp.serverError e => ((tasks, next_id), Resp.serverError e)

/-- `main.read_tasks` (GET /tasks/), gated by `get_current_active_user`. -/
def app_read_tasks (users : List User) (tasks : List Task)
    (token : Token) (now : Int) (skip limit : Nat) : Resp (List Task) :=
  match get_current_active_user users token now with
  | Resp.ok _ => Resp.ok (get_tasks tasks skip limit)
  | Resp.httpError c d => Resp.httpError c d
  | Resp.serverError e => Resp.serverError e

/-- `main.read_task` (GET /tasks/{id}), gated by `get_current_active_user`;
a missing id is a 404. -/
def app_read_task (users : List User) (tasks : List Task)
    (token : Token) (now : Int) (task_id : Nat) : Resp Task :=
  match get_current_active_user users token now with
  | Resp.ok _ =>
      match get_task tasks task_id with
      | none => Resp.httpError 404 "Task not found"
      | some t => Resp.ok t
  | Resp.httpError c d => Resp.httpError c d
  | Resp.serverError e => Resp.serverError e

/-- `main.update_task` (PUT /tasks/{id}), gated by `get_current_admin_user`.
An exception raised inside `crud.update_task` propagates as a server fault;
the handler's own `if db_task is None: 404` branch is unreachable because the
missing-id path raises before returning. -/
def app_update_task (users : List User) (tasks : List Task)
    (token : Token) (now : Int) (task_id : Nat) (body : TaskBase) :
    List Task × Resp Task × List (String × Task) :=
  match get_current_admin_user users token now with
  | Resp.ok _ =>
      match update_task tasks task_id body with
      | Except.error e => (tasks, Resp.serverError e, [])
      | Except.ok (tasks1, t, notifs) => (tasks1, Resp.ok t, notifs)
  | Resp.httpError c d => (tasks, Resp.httpError c d, [])
  | Resp.serverError e => (tasks, Resp.serverError e, [])

/-- `main.delete_task` (DELETE /tasks/{id}), gated by
`get_current_admin_user`; a missing id is a 404. -/
def app_delete_task (users : List User) (tasks : List Task)
    (token : Token) (now : Int) (task_id : Nat) : List Task × Resp Task :=
  match get_current_admin_user users token now with
  | Resp.ok _ =>
      match delete_task tasks task_id with
      | (tasks1, none) => (tasks1, Resp.httpError 404 "Task not found")
      | (tasks1, some t) => (tasks1, Resp.ok t)
  | Resp.httpError c d => (tasks, Resp.httpError c d)
  | Resp.serverError e => (tasks, Resp.serverError e)

/-! Concrete fixtures mirroring `test_main.py`. -/

/-- A request body matching the test suite's sample task. -/
def sampleFields : TaskBase :=
  { title := "Test Task"
    description := "This is a test task"
    reporter := "admin@example.com"
    assignee := "admin@example.com"
    status := TaskStatus.todo
    priority := TaskPriority.medium }

/-- The stored admin user from the test fixtures. -/
def adminUser : User :=
  { id := 1
    email := "admin@example.com"
    hashed_password := pwd_hash 7 "password"
    is_active := true
    role := RoleEnum.admin }

/-- The stored read-only user from the test fixtures. -/
def readOnlyUser : User :=
  { id := 2
    email := "readonly@example.com"
    hashed_password := pwd_hash 9 "password"
    is_active := true
    role := RoleEnum.read_only }

/-- An admin user whose account has been deactivated. -/
def inactiveAdmin : User :=
  { id := 3
    email := "inactive@example.com"
    hashed_password := pwd_hash 11 "password"
    is_active := false
    role := RoleEnum.admin }

/-- A token for the admin user, issued at time 0 with the 30-minute ttl the
HTTP boundary passes. -/
def adminToken : Token := create_access_token "admin@example.com" 0 (some 1800)

/-- A token for the read-only user. -/
def readOnlyToken : Token := create_access_token "readonly@example.com" 0 (some 1800)

/-- A token for the deactivated admin. -/
def inactiveToken : Token := create_access_token "inactive@example.com" 0 (some 1800)

/-- A stored task with id 1 in `todo` status. -/
def sampleTask : Task :=
  { id := 1
    title := "Test Task"
    description := "This is a test task"
    reporter := "admin@example.com"
    assignee := "admin@example.com"
    status := TaskStatus.todo
    priority := TaskPriority.medium }

/-- A second stored task with id 2, untouched by updates targeting id 1. -/
def otherTask : Task :=
  { id := 2
    title := "Other Task"
    description := "Another task"
    reporter := "admin@example.com"
    assignee := "readonly@example.com"
    status := TaskStatus.in_progress
    priority := TaskPriority.high }

/-- The sample body with the status switched to `done`. -/
def doneFields : TaskBase :=
  { sampleFields with status := TaskStatus.done }

/-!
Claim theorems.  Each theorem is named after the claim it settles.
-/

/-- Claim C1 (refuting evidence, code bug): for a task id absent from the
store, `update_task` does NOT report NotFound — the source evaluates
`old_status = db_task.status` before the `if db_task:` guard, so the missing
id raises `AttributeError`, surfaced by the HTTP layer as a server fault
instead of the 404 the handler's dead `if db_task is None` branch intends.
The store is nevertheless left unchanged. -/
theorem C1_update_missing_id_raises :
    update_task [] 1 sampleFields =
      Except.error (PyError.attributeError "NoneType object has no attribute status") ∧
    app_update_task [adminUser] [] adminToken 60 1 sampleFields =
      ([], Resp.serverError (PyError.attributeError "NoneType object has no attribute status"),
        []) :=
  ⟨rfl, by decide⟩

/-- Claim C2 (refuting evidence, code bug): a token issued with ttl = 0 is
NOT rejected.  `timedelta(0)` is falsy, so `create_access_token` falls into
the 15-minute default branch: the token's expiry is `now + 900`, it decodes
successfully at issue time, and the full authentication gate accepts it as a
valid credential for the stored user. -/
theorem C2_ttl_zero_token_accepted :
    (create_access_token "readonly@example.com" 0 (some 0)).exp = 15 * 60 ∧
    jwt_decode (create_access_token "readonly@example.com" 0 (some 0)) SECRET_KEY 0 =
      some (some "readonly@example.com") ∧
    get_current_user [readOnlyUser] (create_access_token "readonly@example.com" 0 (some 0)) 0 =
      Resp.ok readOnlyUser :=
  ⟨by decide, by decide, by decide⟩

/-- Claim C3: for a request bearing a valid token of an existing active user,
the active gate passes for any role (so reading the task list and a single
task is authorized for both `admin` and `read_only`), while the admin-gated
create/update/delete routes succeed only for role `admin` and are otherwise
rejected with 403 and detail "Not enough permissions", leaving the task
store untouched. -/
theorem C3_role_gating (users : List User) (tasks : List Task) (next_id : Nat)
    (token : Token) (now : Int) (body : TaskBase) (task_id skip limit : Nat) (u : User)
    (hu : get_current_user users token now = Resp.ok u)
    (hact : u.is_active = true) :
    get_current_active_user users token now = Resp.ok u ∧
    app_read_tasks users tasks token now skip limit = Resp.ok (get_tasks tasks skip limit) ∧
    (app_read_task users tasks token now task_id =
      match get_task tasks task_id with
      | none => Resp.httpError 404 "Task not found"
      | some t => Resp.ok t) ∧
    (u.role = RoleEnum.admin →
      get_current_admin_user users token now = Resp.ok u ∧
      app_create_task users tasks next_id token now body =
        ((tasks ++ [(create_task tasks next_id body).2.2], next_id + 1),
          Resp.ok (create_task tasks next_id body).2.2)) ∧
    (u.role = RoleEnum.read_only →
      get_current_admin_user users token now =
        Resp.httpError 403 "Not enough permissions" ∧
      app_create_task users tasks next_id token now body =
        ((tasks, next_id), Resp.httpError 403 "Not enough permissions") ∧
      app_update_task users tasks token now task_id body =
        (tasks, Resp.httpError 403 "Not enough permissions", []) ∧
      app_delete_task users tasks token now task_id =
        (tasks, Resp.httpError 403 "Not enough permissions")) := by
  have hgact : get_current_active_user users token now = Resp.ok u := by
    simp [get_current_active_user, hu, hact]
  refine ⟨hgact, by simp [app_read_tasks, hgact], ?_, ?_, ?_⟩
  · simp only [app_read_task, hgact]
  · intro hrole
    have hadm : get_current_admin_user users token now = Resp.ok u := by
      simp [get_current_admin_user, hgact, hrole]
    exact ⟨hadm, by simp [app_create_task, hadm, create_task]⟩
  · intro hrole
    have hadm : get_current_admin_user users token now =
        Resp.httpError 403 "Not enough permissions" := by
      simp [get_current_admin_user, hgact, hrole]
    exact ⟨hadm,
      by simp [app_create_task, hadm],
      by simp [app_update_task, hadm],
      by simp [app_delete_task, hadm]⟩

/-- Witness for C3: the read-only user from the test fixtures is rejected
with 403 "Not enough permissions" when posting a task. -/
theorem C3_witness :
    get_current_user [readOnlyUser] readOnlyToken 60 = Resp.ok readOnlyUser ∧
    readOnlyUser.is_active = true ∧
    app_create_task [readOnlyUser] [] 1 readOnlyToken 60 sampleFields =
      (([], 1), Resp.httpError 403 "Not enough permissions") :=
  ⟨by decide, by decide,
    ((C3_role_gating [readOnlyUser] [] 1 readOnlyToken 60 sampleFields 1 0 10 readOnlyUser
      (by decide) (by decide)).2.2.2.2 (by decide)).2.1⟩

/-- Claim C4: for an existing task id, `update_task` fully replaces every
mutable field (keeping the stored id), and the status-change notification is
emitted exactly once, with the updated (post-commit) record and its reporter
as arguments, precisely when the resulting status differs from the
previously stored status; otherwise no notification is emitted. -/
theorem C4_update_full_replace_notifies_once (tasks : List Task) (task_id : Nat)
    (body : TaskBase) (t : Task) (h : get_task tasks task_id = some t) :
    ∃ notifs : List (String × Task),
      update_task tasks task_id body =
        Except.ok (tasks.map (fun x => if x.id == task_id then apply_update t body else x),
          apply_update t body, notifs) ∧
      apply_update t body =
        ⟨t.id, body.title, body.description, body.reporter, body.assignee,
          body.status, body.priority⟩ ∧
      (t.status ≠ body.status → notifs = [(body.reporter, apply_update t body)]) ∧
      (t.status = body.status → notifs = []) := by
  refine ⟨if t.status ≠ body.status then [(body.reporter, apply_update t body)] else [],
    ?_, rfl, ?_, ?_⟩
  · simp only [update_task, h, apply_update]
  · intro hne
    simp [hne]
  · intro heq
    simp [heq]

/-- Witness for C4: updating the stored `todo` task to `done` commits the
replaced record and fires exactly one notification carrying the reporter and
the updated task. -/
theorem C4_witness :
    get_task [sampleTask, otherTask] 1 = some sampleTask ∧
    sampleTask.status ≠ doneFields.status ∧
    update_task [sampleTask, otherTask] 1 doneFields =
      Except.ok ([apply_update sampleTask doneFields, otherTask],
        apply_update sampleTask doneFields,
        [("admin@example.com", apply_update sampleTask doneFields)]) := by
  obtain ⟨notifs, h1, _h2, h3, _h4⟩ :=
    C4_update_full_replace_notifies_once [sampleTask, otherTask] 1 doneFields sampleTask
      (by decide)
  have hn := h3 (by decide)
  rw [hn] at h1
  refine ⟨by decide, by decide, ?_⟩
  rw [h1]
  rfl

/-- Claim C5: registering a second user with an email that is already stored
fails with 400 "Email already registered" before touching the store, so the
first user's record (email, password hash, role, active flag) is unaffected
and still retrievable. -/
theorem C5_duplicate_email_second_rejected (users : List User) (next_uid salt1 salt2 : Nat)
    (u1 u2 : UserCreate) (hfresh : get_user_by_email users u1.email = none)
    (hsame : u2.email = u1.email) :
    app_create_user users next_uid salt1 u1 =
      ((users ++ [⟨next_uid, u1.email, pwd_hash salt1 u1.password, true, u1.role⟩],
        next_uid + 1),
        Resp.ok ⟨next_uid, u1.email, pwd_hash salt1 u1.password, true, u1.role⟩) ∧
    get_user_by_email
        (users ++ [⟨next_uid, u1.email, pwd_hash salt1 u1.password, true, u1.role⟩])
        u1.email =
      some ⟨next_uid, u1.email, pwd_hash salt1 u1.password, true, u1.role⟩ ∧
    app_create_user
        (users ++ [⟨next_uid, u1.email, pwd_hash salt1 u1.password, true, u1.role⟩])
        (next_uid + 1) salt2 u2 =
      ((users ++ [⟨next_uid, u1.email, pwd_hash salt1 u1.password, true, u1.role⟩],
        next_uid + 1),
        Resp.httpError 400 "Email already registered") := by
  have hlook : get_user_by_email
      (users ++ [⟨next_uid, u1.email, pwd_hash salt1 u1.password, true, u1.role⟩])
      u1.email =
      some ⟨next_uid, u1.email, pwd_hash salt1 u1.password, true, u1.role⟩ := by
    rw [get_user_by_email, List.find?_append]
    rw [get_user_by_email] at hfresh
    rw [hfresh]
    simp
  refine ⟨?_, hlook, ?_⟩
  · simp [app_create_user, hfresh, create_user]
  · simp [app_create_user, hsame, hlook]

/-- Witness for C5: two concrete registrations with the same email — the
second is rejected with 400 and the store still holds exactly the first
user's record. -/
theorem C5_witness :
    app_create_user [] 1 5 ⟨"dup@example.com", "first", RoleEnum.admin⟩ =
      (([⟨1, "dup@example.com", pwd_hash 5 "first", true, RoleEnum.admin⟩], 2),
        Resp.ok ⟨1, "dup@example.com", pwd_hash 5 "first", true, RoleEnum.admin⟩) ∧
    app_create_user [⟨1, "dup@example.com", pwd_hash 5 "first", true, RoleEnum.admin⟩] 2 6
        ⟨"dup@example.com", "second", RoleEnum.read_only⟩ =
      (([⟨1, "dup@example.com", pwd_hash 5 "first", true, RoleEnum.admin⟩], 2),
        Resp.httpError 400 "Email already registered") := by
  have h := C5_duplicate_email_second_rejected [] 1 5 6
    ⟨"dup@example.com", "first", RoleEnum.admin⟩
    ⟨"dup@example.com", "second", RoleEnum.read_only⟩ (by decide) rfl
  exact ⟨by simpa using h.1, by simpa using h.2.2⟩

/-- Claim C6: a valid token whose subject exists but is inactive is rejected
with 400 "Inactive user" by the active gate, and — because the admin gate is
layered over the active gate — an inactive user of ANY role (in particular an
inactive admin) receives the same 400 from every route; the role check is
never reached, so no 403 can be produced for an inactive account. -/
theorem C6_inactive_rejected_before_role (users : List User) (tasks : List Task)
    (next_id : Nat) (token : Token) (now : Int) (body : TaskBase)
    (task_id skip limit : Nat) (u : User)
    (hu : get_current_user users token now = Resp.ok u)
    (hinact : u.is_active = false) :
    get_current_active_user users token now = Resp.httpError 400 "Inactive user" ∧
    get_current_admin_user users token now = Resp.httpError 400 "Inactive user" ∧
    app_create_task users tasks next_id token now body =
      ((tasks, next_id), Resp.httpError 400 "Inactive user") ∧
    app_update_task users tasks token now task_id body =
      (tasks, Resp.httpError 400 "Inactive user", []) ∧
    app_delete_task users tasks token now task_id =
      (tasks, Resp.httpError 400 "Inactive user") ∧
    app_read_tasks users tasks token now skip limit =
      Resp.httpError 400 "Inactive user" ∧
    app_read_task users tasks token now task_id =
      Resp.httpError 400 "Inactive user" := by
  have hact : get_current_active_user users token now = Resp.httpError 400 "Inactive user" := by
    simp [get_current_active_user, hu, hinact]
  have hadm : get_current_admin_user users token now = Resp.httpError 400 "Inactive user" := by
    simp [get_current_admin_user, hact]
  exact ⟨hact, hadm,
    by simp [app_create_task, hadm],
    by simp [app_update_task, hadm],
    by simp [app_delete_task, hadm],
    by simp [app_read_tasks, hact],
    by simp [app_read_task, hact]⟩

/-- Witness for C6: a deactivated admin presenting a valid token receives
400 "Inactive user" from the admin gate, not 403. -/
theorem C6_witness :
    get_current_user [inactiveAdmin] inactiveToken 60 = Resp.ok inactiveAdmin ∧
    inactiveAdmin.is_active = false ∧
    inactiveAdmin.role = RoleEnum.admin ∧
    get_current_admin_user [inactiveAdmin] inactiveToken 60 =
      Resp.httpError 400 "Inactive user" :=
  ⟨by decide, by decide, by decide,
    (C6_inactive_rejected_before_role [inactiveAdmin] [] 1 inactiveToken 60 sampleFields 1 0 10
      inactiveAdmin (by decide) (by decide)).2.1⟩

/-- Claim C7: round trip — a token issued for a subject with a positive ttl
carries expiry `now + ttl`, and decoding it at any time before that expiry
succeeds and returns exactly the subject it was issued for. -/
theorem C7_decode_issue_round_trip (sub : String) (now ttl t : Int)
    (hpos : 0 < ttl) (hbefore : t < now + ttl) :
    (create_access_token sub now (some ttl)).exp = now + ttl ∧
    jwt_decode (create_access_token sub now (some ttl)) SECRET_KEY t = some (some sub) := by
  have htr : timedelta_truthy (some ttl) = true := by
    simp only [timedelta_truthy, bne_iff_ne, ne_eq]
    omega
  have hexp : (create_access_token sub now (some ttl)).exp = now + ttl := by
    simp [create_access_token, htr]
  refine ⟨hexp, ?_⟩
  simp only [jwt_decode, create_access_token, htr, if_true]
  simp only [beq_self_eq_true, if_true]
  rw [if_neg]
  omega

/-- Witness for C7: the admin token issued at time 0 with the 30-minute ttl
decodes to its subject one minute later. -/
theorem C7_witness :
    (0 : Int) < 1800 ∧ (60 : Int) < 0 + 1800 ∧
    jwt_decode (create_access_token "admin@example.com" 0 (some 1800)) SECRET_KEY 60 =
      some (some "admin@example.com") :=
  ⟨by decide, by decide,
    (C7_decode_issue_round_trip "admin@example.com" 0 1800 60 (by decide) (by decide)).2⟩

/-- Claim C8: for a stored task id, `delete_task` removes exactly the rows
with that primary key and returns the prior record (and the route answers
200 with it); afterwards the id no longer resolves, so a repeated delete —
like any delete of an absent id — leaves the store unchanged and the route
answers 404 "Task not found", never a repeated success. -/
theorem C8_delete_removes_or_404 (users : List User) (tasks : List Task)
    (token : Token) (now : Int) (task_id : Nat) (u : User)
    (hadmin : get_current_admin_user users token now = Resp.ok u) :
    (∀ t, get_task tasks task_id = some t →
      delete_task tasks task_id = (tasks.filter (fun x => x.id != task_id), some t) ∧
      app_delete_task users tasks token now task_id =
        (tasks.filter (fun x => x.id != task_id), Resp.ok t) ∧
      get_task (tasks.filter (fun x => x.id != task_id)) task_id = none) ∧
    (get_task tasks task_id = none →
      delete_task tasks task_id = (tasks, none) ∧
      app_delete_task users tasks token now task_id =
        (tasks, Resp.httpError 404 "Task not found")) := by
  constructor
  · intro t ht
    have hfind : tasks.find? (fun x => x.id == task_id) = some t := ht
    have hbeq := List.find?_some hfind
    have hid : t.id = task_id := beq_iff_eq.mp hbeq
    have hdel : delete_task tasks task_id =
        (tasks.filter (fun x => x.id != task_id), some t) := by
      simp only [delete_task, ht, hid]
    have hnone : get_task (tasks.filter (fun x => x.id != task_id)) task_id = none := by
      rw [get_task, List.find?_eq_none]
      intro x hx
      have hne := (List.mem_filter.mp hx).2
      simp only [bne_iff_ne, ne_eq] at hne
      simp [beq_iff_eq, hne]
    exact ⟨hdel, by simp [app_delete_task, hadmin, hdel], hnone⟩
  · intro ht
    have hdel : delete_task tasks task_id = (tasks, none) := by
      simp [delete_task, ht]
    exact ⟨hdel, by simp [app_delete_task, hadmin, hdel]⟩

/-- Witness for C8: deleting the only stored task empties the store and
returns the prior record; deleting from the now-empty store is a 404. -/
theorem C8_witness :
    get_current_admin_user [adminUser] adminToken 60 = Resp.ok adminUser ∧
    get_task [sampleTask] 1 = some sampleTask ∧
    delete_task [sampleTask] 1 = ([], some sampleTask) ∧
    get_task ([] : List Task) 1 = none ∧
    app_delete_task [adminUser] [] adminToken 60 1 =
      ([], Resp.httpError 404 "Task not found") := by
  have h1 := C8_delete_removes_or_404 [adminUser] [sampleTask] adminToken 60 1 adminUser
    (by decide)
  have h2 := C8_delete_removes_or_404 [adminUser] [] adminToken 60 1 adminUser (by decide)
  have ha := (h1.1 sampleTask (by decide)).1
  refine ⟨by decide, by decide, ?_, by decide, (h2.2 (by decide)).2⟩
  rw [ha]
  decide

/-- Claim C9 (spec-modelled): the password verifier is total — `pwd_verify`
is a Bool-valued function, it answers `true` exactly when the plaintext
re-hashes under the stored salt to the stored digest (equivalently, the hash
is one that `pwd_hash` produces for this plaintext), and on a malformed hash
it answers `false` instead of raising. -/
theorem C9_verify_total_sound (p : String) (h : OpaqueHash) :
    (pwd_verify p h = true ↔ ∃ salt, h = pwd_hash salt p) ∧
    (∀ salt, pwd_verify p (pwd_hash salt p) = true) ∧
    (∀ raw, pwd_verify p (OpaqueHash.malformed raw) = false) := by
  refine ⟨?_, fun salt => by simp [pwd_verify, pwd_hash], fun raw => rfl⟩
  cases h with
  | bcrypt s d =>
      simp only [pwd_verify, pwd_hash, beq_iff_eq]
      constructor
      · intro hd
        exact ⟨s, by rw [hd]⟩
      · rintro ⟨salt, hsalt⟩
        injection hsalt with h1 h2
        rw [h1, h2]
  | malformed raw =>
      simp [pwd_verify, pwd_hash]

/-- Witness for C9: the fixture password verifies against its own hash and a
malformed hash string verifies to `false`. -/
theorem C9_witness :
    pwd_verify "password" (pwd_hash 7 "password") = true ∧
    pwd_verify "password" (OpaqueHash.malformed "not-a-hash") = false :=
  ⟨(C9_verify_total_sound "password" (pwd_hash 7 "password")).2.1 7,
    (C9_verify_total_sound "password" (OpaqueHash.malformed "not-a-hash")).2.2 "not-a-hash"⟩

/-- Claim C10: a successful update keeps the targeted task's original id
(the update payload has no id field, so the primary key cannot be
overwritten), preserves the store's size, and leaves every task other than
the targeted one exactly where it was (membership is unchanged in both
directions for every id other than the target). -/
theorem C10_update_keeps_id_and_frame (tasks : List Task) (task_id : Nat)
    (body : TaskBase) (t : Task) (h : get_task tasks task_id = some t) :
    ∃ (tasks1 : List Task) (notifs : List (String × Task)),
      update_task tasks task_id body = Except.ok (tasks1, apply_update t body, notifs) ∧
      (apply_update t body).id = task_id ∧
      tasks1.length = tasks.length ∧
      (∀ x, x ∈ tasks → x.id ≠ task_id → x ∈ tasks1) ∧
      (∀ x, x ∈ tasks1 → x.id ≠ task_id → x ∈ tasks) := by
  have hfind : tasks.find? (fun x => x.id == task_id) = some t := h
  have hbeq := List.find?_some hfind
  have hid : t.id = task_id := beq_iff_eq.mp hbeq
  have hupid : (apply_update t body).id = task_id := by
    simpa [apply_update] using hid
  refine ⟨tasks.map (fun x => if x.id == task_id then apply_update t body else x),
    if t.status ≠ body.status
      then [((apply_update t body).reporter, apply_update t body)] else [],
    ?_, hupid, List.length_map tasks _, ?_, ?_⟩
  · simp only [update_task, h, apply_update]
  · intro x hx hne
    refine List.mem_map.mpr ⟨x, hx, ?_⟩
    simp [beq_iff_eq, hne]
  · intro x hxm hne
    obtain ⟨a, ha, hfa⟩ := List.mem_map.mp hxm
    by_cases hc : (a.id == task_id) = true
    · rw [if_pos hc] at hfa
      exact absurd (hfa ▸ hupid) hne
    · rw [if_neg hc] at hfa
      exact hfa ▸ ha

/-- Witness for C10: updating task 1 in a two-task store keeps id 1 on the
updated record and leaves task 2 in the store untouched. -/
theorem C10_witness :
    get_task [sampleTask, otherTask] 1 = some sampleTask ∧
    update_task [sampleTask, otherTask] 1 doneFields =
      Except.ok ([apply_update sampleTask doneFields, otherTask],
        apply_update sampleTask doneFields,
        [("admin@example.com", apply_update sampleTask doneFields)]) ∧
    (apply_update sampleTask doneFields).id = 1 ∧
    otherTask ∈ [apply_update sampleTask doneFields, otherTask] := by
  obtain ⟨tasks1, notifs, h1, h2, _h3, h4, _h5⟩ :=
    C10_update_keeps_id_and_frame [sampleTask, otherTask] 1 doneFields sampleTask (by decide)
  have hmem : otherTask ∈ tasks1 := h4 otherTask (by decide) (by decide)
  have heval : update_task [sampleTask, otherTask] 1 doneFields =
      Except.ok ([apply_update sampleTask doneFields, otherTask],
        apply_update sampleTask doneFields,
        [("admin@example.com", apply_update sampleTask doneFields)]) := rfl
  rw [heval] at h1
  have ht1 : tasks1 = [apply_update sampleTask doneFields, otherTask] := by
    have hinj := h1
    simp only [Except.ok.injEq, Prod.mk.injEq] at hinj
    exact hinj.1.symm
  exact ⟨by decide, heval, h2, ht1 ▸ hmem⟩

end TaskTracker
